import Mathlib

/-!
Verification of the production build orchestration script
(`src/scripts/build.js`) of the react-webpack-ts-boilerplate repository.

The script is modelled as pure functions over explicit inputs:
the environment variables it reads, the CLI flag, the result of the single
`compiler.run` invocation, and the outcome of the optional stats-file write.
Each definition below is a direct translation of a function or code region
of `build.js` (line references in the doc comments refer to that file);
external library calls (`formatWebpackMessages`, `checkRequiredFiles`) are
modelled from their documented behaviour, parametrised where their internals
do not matter to the orchestrator.
-/

namespace BuildScript

/-- Diagnostic messages extracted from a webpack result: two ordered
sequences of strings, errors and warnings (the shape returned by
`stats.toJson` restricted to warnings/errors, and by
`formatWebpackMessages`). -/
structure WebpackMessages where
  errors : List String
  warnings : List String
deriving Repr, DecidableEq

/-- The structured result of a successful `compiler.run` callback call:
`extracted` models `stats.toJson (all false, warnings true, errors true)`
and `fullJson` models the serialised form of `stats.toJson ()` that
`bfj.write` persists (build.js line 194). -/
structure Stats where
  extracted : WebpackMessages
  fullJson : String
deriving Repr, DecidableEq

/-- The `err` argument of the `compiler.run` callback on a transport-level
failure: a possibly-absent `message` property and, when the error was
augmented by postcss, the `selector` of its `postcssNode` property
(build.js lines 140-153). -/
structure WebpackErr where
  message : Option String
  postcssSelector : Option String
deriving Repr, DecidableEq

/-- What the single `compiler.run` invocation hands to its callback:
either a transport-level failure `err` or a structured `stats` object. -/
inductive RunResult where
  | fail (e : WebpackErr)
  | done (stats : Stats)
deriving Repr, DecidableEq

/-- Model of `react-dev-utils/formatWebpackMessages` (external library,
used at build.js lines 155-162): each message is put through a formatting
function, and when some formatted error looks like a syntax error only
those are kept. The formatter `fmt` and the syntax-error test `isSyn` are
parameters since the orchestrator does not depend on their internals. -/
def formatWebpackMessages (fmt : String → String) (isSyn : String → Bool)
    (m : WebpackMessages) : WebpackMessages :=
  let es := m.errors.map fmt
  let ws := m.warnings.map fmt
  if es.any isSyn then ⟨es.filter isSyn, ws⟩ else ⟨es, ws⟩

/-- Truncation of build.js lines 164-169: `if (messages.errors.length > 1)
messages.errors.length = 1` keeps only the first error. -/
def firstErrorOnly (errors : List String) : List String :=
  if errors.length > 1 then errors.take 1 else errors

/-- Model of the JS `toLowerCase` call at build.js line 175: each
character is lowercased (character-wise map over the string). -/
def jsToLowerCase (s : String) : String :=
  String.mk (s.data.map Char.toLower)

/-- Strict-CI test of build.js lines 172-175: `process.env.CI` must be
truthy (defined and non-empty, since environment variables are strings)
and its lowercase form must differ from the string false. -/
def strictCI : Option String → Bool
  | none => false
  | some s => s ≠ "" && jsToLowerCase s ≠ "false"

/-- Tolerate-type-errors test of build.js line 112:
`process.env.TSC_COMPILE_ON_ERROR === 'true'`. -/
def tscCompileOnErrorFlag : Option String → Bool
  | v => v = some "true"

/-- What the promise executor of `build` does next, after classifying the
callback arguments: reject with the raw error object (line 143), reject
with a constructed Error message (lines 170, 183, 196), write the stats
file and then resolve (lines 192-196), or resolve directly (line 199). -/
inductive CallbackStep where
  | rejectRaw (e : WebpackErr)
  | rejectMsg (reason : String)
  | writeStats (path : String) (content : String) (stats : Stats) (warnings : List String)
  | resolveOk (stats : Stats) (warnings : List String)
deriving Repr, DecidableEq

/-- Decision policy of build.js lines 164-199, applied to the extracted
`messages`: a non-empty error list rejects with the first error only; then
a truthy non-false CI variable together with non-empty warnings rejects
with the joined warnings; then the stats write is scheduled when the
`--stats` flag was given; otherwise the promise resolves with the full
warning list. -/
def decidePolicy (ci : Option String) (writeStatsJson : Bool) (appBuild : String)
    (stats : Stats) (messages : WebpackMessages) : CallbackStep :=
  if messages.errors.length ≠ 0 then
    .rejectMsg (String.intercalate "\n\n" (firstErrorOnly messages.errors))
  else if strictCI ci && messages.warnings.length ≠ 0 then
    .rejectMsg (String.intercalate "\n\n" messages.warnings)
  else if writeStatsJson then
    .writeStats (appBuild ++ "/bundle-stats.json") stats.fullJson stats messages.warnings
  else
    .resolveOk stats messages.warnings

/-- Augmentation of build.js lines 146-153: the error message, with a
clarifying suffix naming the CSS selector appended when the error object
carries a `postcssNode`. -/
def wrapErrMessage (e : WebpackErr) (m : String) : String :=
  match e.postcssSelector with
  | some sel => m ++ "\nCompileError: Begins at CSS selector " ++ sel
  | none => m

/-- Placeholder for the `stats` callback argument on the error path of
build.js lines 140-158, where `stats` is undefined in the source; the
branches of `decidePolicy` that read it are unreachable on that path
because the wrapped error list is never empty. -/
def undefinedStats : Stats :=
  ⟨⟨[], []⟩, ""⟩

/-- The `compiler.run` callback of build.js lines 138-200: a transport
failure without a message rejects with the raw error object; a transport
failure with a message is wrapped (postcss suffix included) into a
single-element error list and formatted; a structured result has its
extracted messages formatted; either way `decidePolicy` then decides. -/
def runCallback (fmt : String → String) (isSyn : String → Bool)
    (ci : Option String) (writeStatsJson : Bool) (appBuild : String)
    (r : RunResult) : CallbackStep :=
  match r with
  | .fail e =>
    match e.message with
    | none => .rejectRaw e
    | some m =>
      decidePolicy ci writeStatsJson appBuild undefinedStats
        (formatWebpackMessages fmt isSyn ⟨[wrapErrMessage e m], []⟩)
  | .done stats =>
    decidePolicy ci writeStatsJson appBuild stats
      (formatWebpackMessages fmt isSyn stats.extracted)

/-- Model of `react-dev-utils/checkRequiredFiles` (external library, used
at build.js line 37): true exactly when every listed file exists. -/
def checkRequiredFiles (ex : String → Bool) (files : List String) : Bool :=
  files.all ex

/-- Report level used by the logger calls of build.js: `warn` (yellow) or
`error` (red). -/
inductive ReportLevel where
  | warnLevel
  | errorLevel
deriving Repr, DecidableEq

/-- Fixed input paths read from `config/paths` that the script uses. -/
structure ScriptPaths where
  appHtml : String
  appIndexJs : String
  appBuild : String

/-- Externally supplied behaviour of one run of the script: which files
exist, what the single `compiler.run` invocation produces, and whether the
`bfj.write` of the stats file fails. -/
structure World where
  fileExists : String → Bool
  runResult : RunResult
  statsWriteFails : Bool

/-- Observable trace of one run of the script: how many times the compiler
was invoked, which files were completely written with which content,
whether the build promise was rejected, at which level a rejection was
reported, and the process exit code (0 when the process was never told to
exit non-zero). -/
structure RunTrace where
  compilerInvocations : Nat
  writtenFiles : List (String × String)
  rejected : Bool
  failureLevel : Option ReportLevel
  exitCode : Nat
deriving Repr, DecidableEq

/-- Rejection handler of build.js lines 111-124: when
`TSC_COMPILE_ON_ERROR === 'true'` the failure is printed at warning level
and the process is not told to exit (exit code 0); otherwise it is printed
at error level and `process.exit(1)` runs. -/
def handleRejection (tsc : Option String) : RunTrace :=
  if tscCompileOnErrorFlag tsc then
    ⟨1, [], true, some .warnLevel, 0⟩
  else
    ⟨1, [], true, some .errorLevel, 1⟩

/-- Whole-script model of build.js: the required-files guard of lines
37-43 exits with code 1 before any compiler invocation; otherwise the
compiler runs exactly once, the callback classifies its result, a
scheduled stats write either completes (then the promise resolves) or
rejects (line 196), and rejections reach the handler of lines 111-124.
Resolution reaches the success handler of lines 76-110, which exits
normally. -/
def runScript (fmt : String → String) (isSyn : String → Bool)
    (ci : Option String) (tsc : Option String) (writeStatsJson : Bool)
    (p : ScriptPaths) (w : World) : RunTrace :=
  if checkRequiredFiles w.fileExists [p.appHtml, p.appIndexJs] then
    match runCallback fmt isSyn ci writeStatsJson p.appBuild w.runResult with
    | .rejectRaw _ => handleRejection tsc
    | .rejectMsg _ => handleRejection tsc
    | .writeStats path content _ _ =>
      if w.statsWriteFails then handleRejection tsc
      else ⟨1, [(path, content)], false, none, 0⟩
    | .resolveOk _ _ => ⟨1, [], false, none, 0⟩
  else
    ⟨0, [], false, none, 1⟩

/-- Top-level catch handler of build.js lines 126-129: log
`err.message || 'Undefined error'` and exit with code 1. Returns the
logged text and the exit code. -/
def topLevelCatch (message : Option String) : String × Nat :=
  (match message with
   | some m => if m = "" then "Undefined error" else m
   | none => "Undefined error", 1)

/-- Total-size bookkeeping of build.js lines 211-219: sum the values of
the `sizes` mapping of a file-size snapshot, 0 when the field is absent.
A JS object maps each key at most once, so the mapping is a list of
key-value pairs. -/
structure FileSizeSnapshot where
  sizes : Option (List (String × Nat))
deriving Repr, DecidableEq

/-- Translation of `getFilesTotalSize` (build.js lines 211-219). -/
def getFilesTotalSize (files : FileSizeSnapshot) : Nat :=
  match files.sizes with
  | none => 0
  | some sizes => sizes.foldl (fun acc el => acc + el.2) 0

/-- Whether a callback step is a rejection (a classified Failure). -/
def CallbackStep.isRejection : CallbackStep → Bool
  | .rejectRaw _ => true
  | .rejectMsg _ => true
  | _ => false

/-- The warning list a non-rejecting callback step carries forward. -/
def CallbackStep.carriedWarnings : CallbackStep → Option (List String)
  | .writeStats _ _ _ ws => some ws
  | .resolveOk _ ws => some ws
  | _ => none

/- ------------------------------------------------------------------ -/
/- Helper lemmas                                                      -/
/- ------------------------------------------------------------------ -/

/-- The rejection handler reports one compiler invocation whatever the
tolerate flag holds. -/
theorem handleRejection_invocations (tsc : Option String) :
    (handleRejection tsc).compilerInvocations = 1 := by
  unfold handleRejection; split <;> rfl

/-- The rejection handler always records a rejected promise. -/
theorem handleRejection_rejected (tsc : Option String) :
    (handleRejection tsc).rejected = true := by
  unfold handleRejection; split <;> rfl

/-- The rejection handler never records a completed stats write. -/
theorem handleRejection_writtenFiles (tsc : Option String) :
    (handleRejection tsc).writtenFiles = [] := by
  unfold handleRejection; split <;> rfl

/-- Every run whose trace records a rejected promise ends in the
rejection handler of build.js lines 111-124. -/
theorem runScript_rejected_eq (fmt : String → String) (isSyn : String → Bool)
    (ci : Option String) (tsc : Option String) (writeStatsJson : Bool)
    (p : ScriptPaths) (w : World)
    (hr : (runScript fmt isSyn ci tsc writeStatsJson p w).rejected = true) :
    runScript fmt isSyn ci tsc writeStatsJson p w = handleRejection tsc := by
  cases hguard : checkRequiredFiles w.fileExists [p.appHtml, p.appIndexJs] with
  | false => simp [runScript, hguard] at hr
  | true =>
    cases hc : runCallback fmt isSyn ci writeStatsJson p.appBuild w.runResult with
    | rejectRaw e => simp [runScript, hguard, hc]
    | rejectMsg r => simp [runScript, hguard, hc]
    | writeStats path content s warns =>
      cases hwf : w.statsWriteFails with
      | true => simp [runScript, hguard, hc, hwf]
      | false => simp [runScript, hguard, hc, hwf] at hr
    | resolveOk s warns => simp [runScript, hguard, hc] at hr

/-- Truncation keeps exactly the head of a non-empty list. -/
theorem firstErrorOnly_cons (e : String) (rest : List String) :
    firstErrorOnly (e :: rest) = [e] := by
  cases rest <;> simp [firstErrorOnly]

/-- Joining a one-element list with the separator returns the element. -/
theorem intercalate_single (sep : String) (s : String) :
    String.intercalate sep [s] = s := by
  simp [String.intercalate, String.intercalate.go]

/-- Decision policy on a non-empty error list: reject with exactly the
first error. -/
theorem decidePolicy_errors_cons (ci : Option String) (writeStatsJson : Bool)
    (appBuild : String) (stats : Stats) (messages : WebpackMessages)
    (e : String) (rest : List String) (h : messages.errors = e :: rest) :
    decidePolicy ci writeStatsJson appBuild stats messages = .rejectMsg e := by
  have hne : messages.errors.length ≠ 0 := by simp [h]
  have h1 : firstErrorOnly messages.errors = [e] := by
    rw [h]; exact firstErrorOnly_cons e rest
  simp [decidePolicy, hne, h1, intercalate_single]

/-- Decision policy on an empty error list: the outcome is the strict-CI
check, then the stats-write scheduling, never the first-error rejection. -/
theorem decidePolicy_errors_nil (ci : Option String) (writeStatsJson : Bool)
    (appBuild : String) (stats : Stats) (messages : WebpackMessages)
    (he : messages.errors = [])
    (hw : strictCI ci = true → messages.warnings = []) :
    decidePolicy ci writeStatsJson appBuild stats messages =
      if writeStatsJson then
        .writeStats (appBuild ++ "/bundle-stats.json") stats.fullJson stats
          messages.warnings
      else
        .resolveOk stats messages.warnings := by
  by_cases hci : strictCI ci = true
  · simp [decidePolicy, he, hci, hw hci]
  · simp only [Bool.not_eq_true] at hci
    simp [decidePolicy, he, hci]

/-- Formatting a single-element error list yields a single-element error
list, whatever the syntax-error filter does. -/
theorem formatWebpackMessages_single (fmt : String → String)
    (isSyn : String → Bool) (x : String) :
    formatWebpackMessages fmt isSyn ⟨[x], []⟩ = ⟨[fmt x], []⟩ := by
  by_cases h : isSyn (fmt x) = true <;>
    simp [formatWebpackMessages, h]

/-- Folding additions of second components computes the sum of the
second components. -/
theorem foldl_add_snd (l : List (String × Nat)) (a : Nat) :
    l.foldl (fun acc el => acc + el.2) a = a + (l.map Prod.snd).sum := by
  induction l generalizing a with
  | nil => simp
  | cons x xs ih => simp [ih, Nat.add_assoc]

/- ------------------------------------------------------------------ -/
/- Claims                                                             -/
/- ------------------------------------------------------------------ -/

/-- C1: for every extracted message set whose error sequence is non-empty,
the decision policy classifies the outcome as Failure and the surfaced
reason is exactly the first error of the sequence — one error entry,
however many errors the input sequence contains. -/
theorem first_error_only_surfaced (ci : Option String) (writeStatsJson : Bool)
    (appBuild : String) (stats : Stats) (messages : WebpackMessages)
    (e : String) (rest : List String) (h : messages.errors = e :: rest) :
    decidePolicy ci writeStatsJson appBuild stats messages = .rejectMsg e ∧
    firstErrorOnly messages.errors = [e] := by
  refine ⟨decidePolicy_errors_cons ci writeStatsJson appBuild stats messages e rest h, ?_⟩
  rw [h]; exact firstErrorOnly_cons e rest

/-- C1 witness: a message set with three errors is classified Failure with
only the first error surfaced. -/
theorem first_error_only_surfaced_witness :
    decidePolicy none false "build" ⟨⟨[], []⟩, ""⟩ ⟨["e1", "e2", "e3"], ["w"]⟩ =
      .rejectMsg "e1" ∧
    firstErrorOnly ["e1", "e2", "e3"] = ["e1"] :=
  first_error_only_surfaced none false "build" ⟨⟨[], []⟩, ""⟩
    ⟨["e1", "e2", "e3"], ["w"]⟩ "e1" ["e2", "e3"] rfl

/-- C5: whenever the extracted error sequence is non-empty the decision
policy rejects (classifies the outcome as Failure), whatever the warning
sequence and the CI variable hold: the error check precedes the
warning-escalation check. -/
theorem errors_dominate_warnings (ci : Option String) (writeStatsJson : Bool)
    (appBuild : String) (stats : Stats) (messages : WebpackMessages)
    (h : messages.errors ≠ []) :
    (decidePolicy ci writeStatsJson appBuild stats messages).isRejection = true := by
  have hne : messages.errors.length ≠ 0 := by
    simpa [List.length_eq_zero] using h
  simp [decidePolicy, hne, CallbackStep.isRejection]

/-- C5 witness: with the CI variable disabled and warnings present, a
single error still classifies the outcome as Failure. -/
theorem errors_dominate_warnings_witness :
    (decidePolicy (some "false") true "build" ⟨⟨[], []⟩, ""⟩
      ⟨["e"], ["w1", "w2"]⟩).isRejection = true :=
  errors_dominate_warnings (some "false") true "build" ⟨⟨[], []⟩, ""⟩
    ⟨["e"], ["w1", "w2"]⟩ (by simp)

/-- C8: the reported total size of a snapshot is the sum of the per-file
byte sizes of its mapping, and a snapshot without a size mapping totals 0. -/
theorem total_size_is_sum (files : FileSizeSnapshot) :
    (∀ l, files.sizes = some l →
      getFilesTotalSize files = (l.map Prod.snd).sum) ∧
    (files.sizes = none → getFilesTotalSize files = 0) := by
  constructor
  · intro l hl
    simp [getFilesTotalSize, hl, foldl_add_snd]
  · intro hn
    simp [getFilesTotalSize, hn]

/-- C8 witness: the before-snapshot a to 100, b to 200 totals 300, the
after-snapshot a to 150, b to 150 totals 300, and an absent mapping
totals 0. -/
theorem total_size_is_sum_witness :
    getFilesTotalSize ⟨some [("a", 100), ("b", 200)]⟩ = 300 ∧
    getFilesTotalSize ⟨some [("a", 150), ("b", 150)]⟩ = 300 ∧
    getFilesTotalSize ⟨none⟩ = 0 := by
  refine ⟨?_, ?_, (total_size_is_sum ⟨none⟩).2 rfl⟩
  · have h := (total_size_is_sum ⟨some [("a", 100), ("b", 200)]⟩).1
      [("a", 100), ("b", 200)] rfl
    simpa using h
  · have h := (total_size_is_sum ⟨some [("a", 150), ("b", 150)]⟩).1
      [("a", 150), ("b", 150)] rfl
    simpa using h

/-- C2 counterexample: the CI variable set to the string FALSE is set and
differs from the string false, yet a warning-only result is classified
Success (the code lowercases the variable before comparing), contradicting
the claim that any set value other than the exact string false escalates
warnings to Failure. -/
theorem strict_ci_exact_string_counterexample :
    (some "FALSE" : Option String) ≠ none ∧
    "FALSE" ≠ "false" ∧
    decidePolicy (some "FALSE") false "build" ⟨⟨[], []⟩, ""⟩ ⟨[], ["w"]⟩ =
      .resolveOk ⟨⟨[], []⟩, ""⟩ ["w"] := by
  refine ⟨by simp, by decide, by decide⟩

/-- C2 amended: for a result with an empty error sequence and a non-empty
warning sequence, the outcome is Failure with the joined warnings as
reason exactly when the CI variable is set to a non-empty string whose
lowercase form is not false; otherwise (unset, empty, or case-insensitively
false) the outcome is not a rejection and carries the full warning
sequence forward. -/
theorem warnings_escalation (ci : Option String) (writeStatsJson : Bool)
    (appBuild : String) (stats : Stats) (messages : WebpackMessages)
    (he : messages.errors = []) (hw : messages.warnings ≠ []) :
    (strictCI ci = true →
      decidePolicy ci writeStatsJson appBuild stats messages =
        .rejectMsg (String.intercalate "\n\n" messages.warnings)) ∧
    (strictCI ci = false →
      (decidePolicy ci writeStatsJson appBuild stats messages).isRejection = false ∧
      (decidePolicy ci writeStatsJson appBuild stats messages).carriedWarnings =
        some messages.warnings) := by
  have hwl : messages.warnings.length ≠ 0 := by
    simpa [List.length_eq_zero] using hw
  constructor
  · intro hci
    simp [decidePolicy, he, hci, hwl]
  · intro hci
    cases hflag : writeStatsJson <;>
      simp [decidePolicy, he, hci, hflag, CallbackStep.isRejection,
        CallbackStep.carriedWarnings]

/-- C2 witness: with the CI variable set to 1 a warning-only result is
rejected with the joined warnings, and with it unset the same result
carries its warnings into a Success classification. -/
theorem warnings_escalation_witness :
    (decidePolicy (some "1") false "build" ⟨⟨[], []⟩, ""⟩ ⟨[], ["w1", "w2"]⟩ =
      .rejectMsg (String.intercalate "\n\n" ["w1", "w2"])) ∧
    (decidePolicy none false "build" ⟨⟨[], []⟩, ""⟩
        ⟨[], ["w1", "w2"]⟩).carriedWarnings = some ["w1", "w2"] :=
  ⟨(warnings_escalation (some "1") false "build" ⟨⟨[], []⟩, ""⟩
      ⟨[], ["w1", "w2"]⟩ rfl (by simp)).1 (by decide),
   ((warnings_escalation none false "build" ⟨⟨[], []⟩, ""⟩
      ⟨[], ["w1", "w2"]⟩ rfl (by simp)).2 (by decide)).2⟩

/-- C4: when both required input files exist the guard raises no
configuration error and the compiler is invoked exactly once; when either
is absent the script exits with code 1 and the compiler invocation count
is zero. -/
theorem required_files_guard (fmt : String → String) (isSyn : String → Bool)
    (ci : Option String) (tsc : Option String) (writeStatsJson : Bool)
    (p : ScriptPaths) (w : World) :
    (w.fileExists p.appHtml = true → w.fileExists p.appIndexJs = true →
      (runScript fmt isSyn ci tsc writeStatsJson p w).compilerInvocations = 1) ∧
    (¬(w.fileExists p.appHtml = true ∧ w.fileExists p.appIndexJs = true) →
      (runScript fmt isSyn ci tsc writeStatsJson p w).compilerInvocations = 0 ∧
      (runScript fmt isSyn ci tsc writeStatsJson p w).exitCode = 1) := by
  constructor
  · intro h1 h2
    have hguard : checkRequiredFiles w.fileExists [p.appHtml, p.appIndexJs] = true := by
      simp [checkRequiredFiles, h1, h2]
    cases hc : runCallback fmt isSyn ci writeStatsJson p.appBuild w.runResult with
    | rejectRaw e => simp [runScript, hguard, hc, handleRejection_invocations]
    | rejectMsg r => simp [runScript, hguard, hc, handleRejection_invocations]
    | writeStats path content s warns =>
      cases hwf : w.statsWriteFails <;>
        simp [runScript, hguard, hc, hwf, handleRejection_invocations]
    | resolveOk s warns => simp [runScript, hguard, hc]
  · intro hn
    cases hguard : checkRequiredFiles w.fileExists [p.appHtml, p.appIndexJs] with
    | false => simp [runScript, hguard]
    | true =>
      exfalso
      apply hn
      simpa [checkRequiredFiles] using hguard

/-- C4 witness: a run in which both files exist invokes the compiler once,
and a run in which no file exists invokes it zero times and exits 1. -/
theorem required_files_guard_witness :
    (runScript id (fun _ => false) none none false ⟨"html", "idx", "build"⟩
      ⟨fun _ => true, .done ⟨⟨[], []⟩, "j"⟩, false⟩).compilerInvocations = 1 ∧
    ((runScript id (fun _ => false) none none false ⟨"html", "idx", "build"⟩
      ⟨fun _ => false, .done ⟨⟨[], []⟩, "j"⟩, false⟩).compilerInvocations = 0 ∧
     (runScript id (fun _ => false) none none false ⟨"html", "idx", "build"⟩
      ⟨fun _ => false, .done ⟨⟨[], []⟩, "j"⟩, false⟩).exitCode = 1) :=
  ⟨(required_files_guard id (fun _ => false) none none false
      ⟨"html", "idx", "build"⟩ ⟨fun _ => true, .done ⟨⟨[], []⟩, "j"⟩, false⟩).1
      rfl rfl,
   (required_files_guard id (fun _ => false) none none false
      ⟨"html", "idx", "build"⟩ ⟨fun _ => false, .done ⟨⟨[], []⟩, "j"⟩, false⟩).2
      (by simp)⟩

/-- C6: a transport-level failure carrying a message is wrapped into a
single-element error sequence (the callback rejects with exactly that
formatted message), and when the error object carries a postcss node the
wrapped message is the original message with a one-line suffix naming the
CSS selector. -/
theorem transport_failure_wrapped (fmt : String → String) (isSyn : String → Bool)
    (ci : Option String) (writeStatsJson : Bool) (appBuild : String)
    (e : WebpackErr) (m : String) (hm : e.message = some m) :
    (formatWebpackMessages fmt isSyn ⟨[wrapErrMessage e m], []⟩).errors =
      [fmt (wrapErrMessage e m)] ∧
    runCallback fmt isSyn ci writeStatsJson appBuild (.fail e) =
      .rejectMsg (fmt (wrapErrMessage e m)) ∧
    (∀ sel, e.postcssSelector = some sel →
      wrapErrMessage e m = m ++ "\nCompileError: Begins at CSS selector " ++ sel) := by
  have hfmt := formatWebpackMessages_single fmt isSyn (wrapErrMessage e m)
  refine ⟨by rw [hfmt], ?_, ?_⟩
  · have hcall : runCallback fmt isSyn ci writeStatsJson appBuild (.fail e) =
        decidePolicy ci writeStatsJson appBuild undefinedStats
          (formatWebpackMessages fmt isSyn ⟨[wrapErrMessage e m], []⟩) := by
      simp [runCallback, hm]
    rw [hcall, hfmt]
    exact decidePolicy_errors_cons ci writeStatsJson appBuild undefinedStats
      ⟨[fmt (wrapErrMessage e m)], []⟩ (fmt (wrapErrMessage e m)) [] rfl
  · intro sel hsel
    simp [wrapErrMessage, hsel]

/-- C6 witness: a transport failure with message boom and postcss selector
.app rejects with the single wrapped error naming the selector. -/
theorem transport_failure_wrapped_witness :
    (formatWebpackMessages id (fun _ => false)
        ⟨[wrapErrMessage ⟨some "boom", some ".app"⟩ "boom"], []⟩).errors =
      [id (wrapErrMessage ⟨some "boom", some ".app"⟩ "boom")] ∧
    runCallback id (fun _ => false) none false "build"
        (.fail ⟨some "boom", some ".app"⟩) =
      .rejectMsg (id (wrapErrMessage ⟨some "boom", some ".app"⟩ "boom")) ∧
    (∀ sel, (some ".app" : Option String) = some sel →
      wrapErrMessage ⟨some "boom", some ".app"⟩ "boom" =
        "boom" ++ "\nCompileError: Begins at CSS selector " ++ sel) :=
  transport_failure_wrapped id (fun _ => false) none false "build"
    ⟨some "boom", some ".app"⟩ "boom" rfl

/-- C3 counterexample: with the tolerate variable set to true, a run
whose failure is a transport-level bundler error (not a type-check
diagnostic) is still downgraded — the promise is rejected, the report is
at warning level and the exit code is 0 — where the claim demands a
non-zero exit for failures that do not stem purely from type-checking. -/
theorem tolerate_flag_counterexample :
    runScript id (fun _ => false) none (some "true") false
      ⟨"index.html", "index.tsx", "build"⟩
      ⟨fun _ => true, .fail ⟨some "Error: spawn webpack ENOMEM", none⟩, false⟩ =
      ⟨1, [], true, some .warnLevel, 0⟩ := by
  rfl

/-- C3 amended: on any run whose promise is rejected (a classified
Failure), the tolerate variable equal to true yields a warning-level
report with exit code 0 — whatever the failure stems from, since the
script never inspects the failure — and any other value of the variable
yields an error-level report with exit code 1. -/
theorem tolerate_flag_downgrades_all_failures (fmt : String → String)
    (isSyn : String → Bool) (ci : Option String) (tsc : Option String)
    (writeStatsJson : Bool) (p : ScriptPaths) (w : World)
    (hr : (runScript fmt isSyn ci tsc writeStatsJson p w).rejected = true) :
    (tscCompileOnErrorFlag tsc = true →
      runScript fmt isSyn ci tsc writeStatsJson p w =
        ⟨1, [], true, some .warnLevel, 0⟩) ∧
    (tscCompileOnErrorFlag tsc = false →
      runScript fmt isSyn ci tsc writeStatsJson p w =
        ⟨1, [], true, some .errorLevel, 1⟩) := by
  have heq := runScript_rejected_eq fmt isSyn ci tsc writeStatsJson p w hr
  constructor <;> intro hf <;> rw [heq] <;> simp [handleRejection, hf]

/-- C3 witness: a run with the tolerate variable unset and a failing
compilation reports the failure at error level and exits with code 1. -/
theorem tolerate_flag_downgrades_all_failures_witness :
    runScript id (fun _ => false) none none false
      ⟨"index.html", "index.tsx", "build"⟩
      ⟨fun _ => true, .fail ⟨some "boom", none⟩, false⟩ =
      ⟨1, [], true, some .errorLevel, 1⟩ :=
  (tolerate_flag_downgrades_all_failures id (fun _ => false) none none false
    ⟨"index.html", "index.tsx", "build"⟩
    ⟨fun _ => true, .fail ⟨some "boom", none⟩, false⟩ (by rfl)).2 (by rfl)

/-- C7 counterexample: a run invoked with the stats flag whose compilation
returns an error writes no stats file, refuting the unconditional claim
that the flag alone determines that the file is written. -/
theorem stats_flag_iff_counterexample :
    (runScript id (fun _ => false) none none true
      ⟨"index.html", "index.tsx", "build"⟩
      ⟨fun _ => true, .done ⟨⟨["boom"], []⟩, "rawjson"⟩, false⟩).writtenFiles =
      [] := by
  rfl

/-- C7 amended: on a run where both required files exist, the compiler
returns a structured result whose formatted messages contain no error and
trigger no strict-CI escalation, and the stats write does not fail, the
stats file is written exactly when the stats flag was supplied — at the
fixed name bundle-stats.json inside the output directory, with content
equal to the raw serialised statistics — and without the flag nothing is
written. -/
theorem stats_flag_iff_on_success (fmt : String → String) (isSyn : String → Bool)
    (ci : Option String) (tsc : Option String) (writeStatsJson : Bool)
    (p : ScriptPaths) (w : World) (stats : Stats)
    (h1 : w.fileExists p.appHtml = true) (h2 : w.fileExists p.appIndexJs = true)
    (hs : w.runResult = .done stats)
    (he : (formatWebpackMessages fmt isSyn stats.extracted).errors = [])
    (hw : strictCI ci = true →
      (formatWebpackMessages fmt isSyn stats.extracted).warnings = [])
    (hwf : w.statsWriteFails = false) :
    (runScript fmt isSyn ci tsc writeStatsJson p w).writtenFiles =
      if writeStatsJson then
        [(p.appBuild ++ "/bundle-stats.json", stats.fullJson)]
      else [] := by
  have hguard : checkRequiredFiles w.fileExists [p.appHtml, p.appIndexJs] = true := by
    simp [checkRequiredFiles, h1, h2]
  have hcall : runCallback fmt isSyn ci writeStatsJson p.appBuild w.runResult =
      decidePolicy ci writeStatsJson p.appBuild stats
        (formatWebpackMessages fmt isSyn stats.extracted) := by
    rw [hs]; rfl
  have hpol := decidePolicy_errors_nil ci writeStatsJson p.appBuild stats
    (formatWebpackMessages fmt isSyn stats.extracted) he hw
  cases hflag : writeStatsJson with
  | true =>
    subst hflag
    simp only [if_true] at hpol ⊢
    simp [runScript, hguard, hcall, hpol, hwf]
  | false =>
    subst hflag
    simp only [Bool.false_eq_true, if_false] at hpol ⊢
    simp [runScript, hguard, hcall, hpol]

/-- C7 witness: with the stats flag supplied and a clean compilation the
file bundle-stats.json is written into the output directory with exactly
the raw statistics content. -/
theorem stats_flag_iff_on_success_witness :
    (runScript id (fun _ => false) none none true ⟨"h", "i", "b"⟩
      ⟨fun _ => true, .done ⟨⟨[], []⟩, "rawjson"⟩, false⟩).writtenFiles =
      [("b/bundle-stats.json", "rawjson")] := by
  have h := stats_flag_iff_on_success id (fun _ => false) none none true
    ⟨"h", "i", "b"⟩ ⟨fun _ => true, .done ⟨⟨[], []⟩, "rawjson"⟩, false⟩
    ⟨⟨[], []⟩, "rawjson"⟩ rfl rfl rfl (by decide) (by decide) rfl
  rw [h]; decide

/-- C9: the top-level catch handler exits with code 1 (non-zero), logs
the message of the caught exception when it carries a non-empty one, and
logs the generic placeholder when the exception has no message. -/
theorem top_level_catch_behaviour (message : Option String) :
    (topLevelCatch message).2 = 1 ∧
    (∀ m, message = some m → m ≠ "" → (topLevelCatch message).1 = m) ∧
    ((message = none ∨ message = some "") →
      (topLevelCatch message).1 = "Undefined error") := by
  refine ⟨rfl, ?_, ?_⟩
  · intro m hm hne
    subst hm
    simp [topLevelCatch, hne]
  · intro h
    rcases h with h | h <;> subst h <;> simp [topLevelCatch]

/-- C9 witness: an exception with message boom is logged as boom with
exit code 1, and an exception without a message is logged with the
placeholder. -/
theorem top_level_catch_behaviour_witness :
    (topLevelCatch (some "boom")).2 = 1 ∧
    (topLevelCatch (some "boom")).1 = "boom" ∧
    (topLevelCatch none).1 = "Undefined error" :=
  ⟨(top_level_catch_behaviour (some "boom")).1,
   (top_level_catch_behaviour (some "boom")).2.1 "boom" rfl (by decide),
   (top_level_catch_behaviour none).2.2 (Or.inl rfl)⟩

/-- C10 counterexample: with the stats flag supplied, a clean
compilation, a failing stats write and the tolerate variable set to true,
the promise is rejected but the process exits 0, refuting the
unconditional non-zero exit of the claim. -/
theorem stats_write_failure_counterexample :
    runScript id (fun _ => false) none (some "true") true
      ⟨"index.html", "index.tsx", "build"⟩
      ⟨fun _ => true, .done ⟨⟨[], []⟩, "rawjson"⟩, true⟩ =
      ⟨1, [], true, some .warnLevel, 0⟩ := by
  rfl

/-- C10 amended: with the stats flag supplied, both required files
present, a structured result without errors or strict-CI escalation, and
a failing stats write, the build promise is rejected and no stats file is
recorded; the process exits 1 unless the tolerate variable equals true,
in which case the rejection is downgraded and the exit code is 0. -/
theorem stats_write_failure_rejects (fmt : String → String)
    (isSyn : String → Bool) (ci : Option String) (tsc : Option String)
    (p : ScriptPaths) (w : World) (stats : Stats)
    (h1 : w.fileExists p.appHtml = true) (h2 : w.fileExists p.appIndexJs = true)
    (hs : w.runResult = .done stats)
    (he : (formatWebpackMessages fmt isSyn stats.extracted).errors = [])
    (hw : strictCI ci = true →
      (formatWebpackMessages fmt isSyn stats.extracted).warnings = [])
    (hwf : w.statsWriteFails = true) :
    (runScript fmt isSyn ci tsc true p w).rejected = true ∧
    (runScript fmt isSyn ci tsc true p w).writtenFiles = [] ∧
    (tscCompileOnErrorFlag tsc = false →
      (runScript fmt isSyn ci tsc true p w).exitCode = 1) ∧
    (tscCompileOnErrorFlag tsc = true →
      (runScript fmt isSyn ci tsc true p w).exitCode = 0) := by
  have hguard : checkRequiredFiles w.fileExists [p.appHtml, p.appIndexJs] = true := by
    simp [checkRequiredFiles, h1, h2]
  have hcall : runCallback fmt isSyn ci true p.appBuild w.runResult =
      decidePolicy ci true p.appBuild stats
        (formatWebpackMessages fmt isSyn stats.extracted) := by
    rw [hs]; rfl
  have hpol := decidePolicy_errors_nil ci true p.appBuild stats
    (formatWebpackMessages fmt isSyn stats.extracted) he hw
  simp only [if_true] at hpol
  have hrun : runScript fmt isSyn ci tsc true p w = handleRejection tsc := by
    simp [runScript, hguard, hcall, hpol, hwf]
  refine ⟨by rw [hrun]; exact handleRejection_rejected tsc,
          by rw [hrun]; exact handleRejection_writtenFiles tsc, ?_, ?_⟩
  · intro hf
    rw [hrun]
    simp [handleRejection, hf]
  · intro hf
    rw [hrun]
    simp [handleRejection, hf]

/-- C10 witness: with the tolerate variable unset, a failing stats write
on an otherwise clean build rejects the promise and exits 1. -/
theorem stats_write_failure_rejects_witness :
    (runScript id (fun _ => false) none none true ⟨"h", "i", "b"⟩
      ⟨fun _ => true, .done ⟨⟨[], []⟩, "rawjson"⟩, true⟩).rejected = true ∧
    (runScript id (fun _ => false) none none true ⟨"h", "i", "b"⟩
      ⟨fun _ => true, .done ⟨⟨[], []⟩, "rawjson"⟩, true⟩).exitCode = 1 := by
  have h := stats_write_failure_rejects id (fun _ => false) none none
    ⟨"h", "i", "b"⟩ ⟨fun _ => true, .done ⟨⟨[], []⟩, "rawjson"⟩, true⟩
    ⟨⟨[], []⟩, "rawjson"⟩ rfl rfl rfl (by decide) (by decide) rfl
  exact ⟨h.1, h.2.2.1 (by decide)⟩

end BuildScript
